import Mathlib

/-!
Verification development for the professor-discovery and scheduling core of
the email-draft application (`app.py` and its companion scripts).

Python functions are shallowly embedded as pure Lean functions.  The external
network capabilities (Tavily search / extract, LLM chat completion) and the
ambient clock are passed in as explicit oracle parameters; everything the
Python code computes itself is reproduced from the source.
-/

namespace EmailDraft

/-- Python substring membership `needle in hay`, on character lists:
true iff `n` occurs as a contiguous sublist of the second argument. -/
def strIn : List Char → List Char → Bool
  | n, [] => n.isEmpty
  | n, c :: t => (n.isPrefixOf (c :: t)) || strIn n t

/-- Python `needle in hay` for strings (substring test). -/
def pyIn (needle hay : String) : Bool :=
  strIn needle.data hay.data

/-- Python `str.lower()`; maps each character to lower case.  Faithful for
the ASCII texts this application manipulates. -/
def pyLower (s : String) : String :=
  ⟨s.data.map Char.toLower⟩

/-- Python truthiness of an optional string: `None` and `""` are falsy. -/
def truthyS : Option String → Bool
  | none => false
  | some s => s != ""

/-- Python `str.startswith(pre)` for strings. -/
def pyStartsWith (pre s : String) : Bool :=
  pre.data.isPrefixOf s.data

/-- Python `str.strip()`: drop whitespace from both ends (faithful for the
ASCII whitespace appearing in this application). -/
def pyStrip (s : String) : String :=
  ⟨((s.data.dropWhile Char.isWhitespace).reverse.dropWhile Char.isWhitespace).reverse⟩

/-! ### ResearchAreaExtractor (`extract_research_areas_from_cv`, app.py 74-103) -/

/-- The fixed `research_keywords` table, in the dict's insertion order.  The
keyword strings are verbatim from the source, including the upper-case
entries such as `"AI"`, `"ML"`, `"CS"`. -/
def research_keywords : List (String × List String) :=
  [("computer_science", ["computer science", "CS", "computing", "software engineering", "programming"]),
   ("artificial_intelligence", ["artificial intelligence", "AI", "machine learning", "ML", "deep learning", "neural networks"]),
   ("data_science", ["data science", "data analytics", "big data", "statistics", "analytics"]),
   ("cybersecurity", ["cybersecurity", "security", "cyber", "information security", "network security"]),
   ("robotics", ["robotics", "robots", "automation", "control systems"]),
   ("bioinformatics", ["bioinformatics", "computational biology", "genomics", "bio"]),
   ("electrical_engineering", ["electrical engineering", "EE", "electronics", "circuits"]),
   ("mechanical_engineering", ["mechanical engineering", "ME", "mechanics", "dynamics"]),
   ("civil_engineering", ["civil engineering", "CE", "structures", "construction"]),
   ("mathematics", ["mathematics", "math", "applied mathematics", "statistics"]),
   ("physics", ["physics", "applied physics", "theoretical physics"]),
   ("chemistry", ["chemistry", "chemical", "biochemistry"]),
   ("biology", ["biology", "biological", "biotechnology"])]

/-- `extract_research_areas_from_cv`: lower-cases the CV text, then appends
an area tag as soon as one of its keywords occurs as a substring (the inner
loop breaks after the first hit). -/
def extract_research_areas_from_cv (cv_text : String) : List String :=
  let cv_lower := pyLower cv_text
  research_keywords.filterMap fun ak =>
    if ak.2.any (fun keyword => pyIn keyword cv_lower) then some ak.1 else none

/-! ### QueryPlanner (inside `search_professors_with_tavily`, app.py 120-162) -/

/-- The ten fixed base faculty-search queries. -/
def base_queries (university_name : String) : List String :=
  [university_name ++ " faculty directory computer science",
   university_name ++ " faculty list computer science department",
   university_name ++ " computer science professors",
   university_name ++ " faculty profiles computer science",
   university_name ++ " department of computer science faculty",
   university_name ++ " computer science faculty research",
   university_name ++ " CS faculty directory",
   university_name ++ " computer science department faculty",
   university_name ++ " faculty computer science research areas",
   university_name ++ " computer science professors research interests"]

/-- The per-area query templates added for a single recognized area
(the if/elif chain in the source; unrecognized areas add nothing). -/
def area_queries (university_name area : String) : List String :=
  if area = "artificial_intelligence" then
    [university_name ++ " AI faculty machine learning",
     university_name ++ " artificial intelligence professors",
     university_name ++ " machine learning faculty"]
  else if area = "data_science" then
    [university_name ++ " data science faculty",
     university_name ++ " analytics professors",
     university_name ++ " big data faculty"]
  else if area = "cybersecurity" then
    [university_name ++ " cybersecurity faculty",
     university_name ++ " security professors",
     university_name ++ " information security faculty"]
  else if area = "robotics" then
    [university_name ++ " robotics faculty",
     university_name ++ " automation professors",
     university_name ++ " control systems faculty"]
  else []

/-- The loop `for area in research_areas: area_specific_queries.extend(...)`. -/
def area_specific_queries (university_name : String) (research_areas : List String) : List String :=
  research_areas.flatMap (area_queries university_name)

/-- `faculty_search_queries = base_queries + area_specific_queries`. -/
def faculty_search_queries (university_name : String) (research_areas : List String) : List String :=
  base_queries university_name ++ area_specific_queries university_name research_areas

/-! ### Data model (Pydantic schemas, app.py 866-895) -/

/-- `ProfessorInfo` (Pydantic).  The `Optional[str]` link fields default to
`None`; `title` and `department` carry string defaults. -/
structure ProfessorInfo where
  name : String
  title : String := "Professor"
  department : String := "Computer Science"
  research_areas : List String
  email : Option String := none
  website : Option String := none
  google_scholar : Option String := none
  linkedin : Option String := none
deriving DecidableEq, Repr

/-- `HiringInfo` (Pydantic). -/
structure HiringInfo where
  professor_name : String
  is_hiring : Bool
  position_type : Option String := none
  details : String
  sources : List String
  last_updated : Option String := none
deriving DecidableEq, Repr

/-! ### SearchGateway / FacultyCorpusBuilder
(`search_professors_with_tavily`, app.py 105-243)

A Tavily search hit is a JSON dict; the code reads the keys `url`,
`content`, `raw_content` and `snippet` with `.get`, so each is modelled as
an optional string (`none` = key absent).  The network calls are oracles:
`searchO` maps a query to either an exception message (`.error`) or the
`results` list of the response, and `extractO` maps a URL to either an
exception message or the value of the extract response's `content` key. -/

structure TavilyResult where
  url : Option String := none
  content : Option String := none
  raw_content : Option String := none
  snippet : Option String := none
deriving DecidableEq, Repr

/-- The combined value returned on success (app.py 236-240). -/
structure TavilyOut where
  search_results : List TavilyResult
  extracted_content : String
  source_urls : List String
deriving DecidableEq, Repr

/-- The fan-out loop (app.py 164-185): each query is searched inside a
`try`; a raised exception logs a warning and contributes nothing, and
`all_search_results` is extended with the `results` list otherwise
(extending with an empty list is a no-op, so the `if response.get('results')`
guard needs no separate case). -/
def collect_results (queries : List String)
    (searchO : String → Except String (List TavilyResult)) : List TavilyResult :=
  queries.flatMap fun query =>
    match searchO query with
    | .error _ => []
    | .ok results => results

/-- Per-hit extraction with fallbacks (app.py 193-217).  A hit without a
truthy `url` is skipped.  On a successful extract call with truthy
`content`, that content is used; otherwise the hit's `content`, then its
`raw_content`, serve as fallbacks (both on extract failure and on an
extract response without content). -/
def process_result (extractO : String → Except String (Option String))
    (result : TavilyResult) : List String :=
  if truthyS result.url then
    let url := result.url.getD ""
    match extractO url with
    | .ok content? =>
      if truthyS content? then
        ["Source: " ++ url ++ "\nContent: " ++ content?.getD ""]
      else if truthyS result.content then
        ["Source: " ++ url ++ "\nContent: " ++ result.content.getD ""]
      else if truthyS result.raw_content then
        ["Source: " ++ url ++ "\nContent: " ++ result.raw_content.getD ""]
      else []
    | .error _ =>
      if truthyS result.content then
        ["Source: " ++ url ++ "\nContent: " ++ result.content.getD ""]
      else if truthyS result.raw_content then
        ["Source: " ++ url ++ "\nContent: " ++ result.raw_content.getD ""]
      else []
  else []

/-- The snippet-level fallback pass (app.py 220-226), used only when the
extraction loop produced nothing. -/
def fallback_content (results : List TavilyResult) : List String :=
  results.flatMap fun result =>
    if truthyS result.content then
      ["Source: " ++ result.url.getD "Unknown" ++ "\nContent: " ++ result.content.getD ""]
    else if truthyS result.snippet then
      ["Source: " ++ result.url.getD "Unknown" ++ "\nContent: " ++ result.snippet.getD ""]
    else []

/-- `search_professors_with_tavily` (app.py 105-243).  Plans the queries,
fans out the searches, hard-stops with the no-results error when zero hits
were collected, then extracts content for the top five hits (with the
fallback chain) and assembles the combined corpus with source URLs.  The
Python function signals failure by returning an `"Error: ..."` string
instead of the result dict; this is modelled with `Except`. -/
def search_professors_with_tavily (university_name cv_text : String)
    (searchO : String → Except String (List TavilyResult))
    (extractO : String → Except String (Option String)) : Except String TavilyOut :=
  let research_areas := extract_research_areas_from_cv cv_text
  let queries := faculty_search_queries university_name research_areas
  let all_search_results := collect_results queries searchO
  if all_search_results.isEmpty then
    .error "Error: No faculty information found via Tavily search"
  else
    let extracted_content := (all_search_results.take 5).flatMap (process_result extractO)
    let extracted_content :=
      if extracted_content.isEmpty then fallback_content (all_search_results.take 5)
      else extracted_content
    if extracted_content.isEmpty then
      .error "Error: Could not extract content from search results"
    else
      .ok { search_results := all_search_results,
            extracted_content := String.intercalate "\n\n---\n\n" extracted_content,
            source_urls := all_search_results.filterMap fun result =>
              if truthyS result.url then some (result.url.getD "") else none }

/-! ### ProfileEnricher (`enhance_professor_info`, app.py 245-269)

`search_additional_professor_info` (app.py 1166-1215) is a pair of network
lookups that catches every exception and returns a dict holding at most the
keys `google_scholar` and `linkedin`; it is modelled as the oracle
`searchO : String → AdditionalInfo` keyed by the professor's name (the
university argument is fixed for the whole run). -/

structure AdditionalInfo where
  google_scholar : Option String := none
  linkedin : Option String := none
deriving DecidableEq, Repr

/-- `enhance_professor_info`: for each professor whose `google_scholar` or
`linkedin` is falsy, run the extra lookup and fill exactly the fields that
are falsy on the professor and truthy in the lookup result.  (The guard
`if not professors: return professors` coincides with mapping over `[]`.) -/
def enhance_professor_info (professors : List ProfessorInfo)
    (searchO : String → AdditionalInfo) : List ProfessorInfo :=
  professors.map fun professor =>
    if !truthyS professor.google_scholar || !truthyS professor.linkedin then
      let additional_info := searchO professor.name
      let p1 :=
        if truthyS additional_info.google_scholar && !truthyS professor.google_scholar then
          { professor with google_scholar := additional_info.google_scholar }
        else professor
      if truthyS additional_info.linkedin && !truthyS professor.linkedin then
        { p1 with linkedin := additional_info.linkedin }
      else p1
    else professor

/-! ### HiringStatusAnalyzer (`search_hiring_info`, app.py 1054-1136,
and `analyze_all_professors`, app.py 1138-1164) -/

/-- The fixed hiring keyword list (app.py 1098). -/
def hiring_keywords : List String :=
  ["hiring", "position", "opening", "accepting", "seeking", "recruiting",
   "phd student", "graduate student", "looking for", "opportunity"]

/-- The fixed not-hiring keyword list (app.py 1099). -/
def not_hiring_keywords : List String :=
  ["not hiring", "no positions", "closed", "filled", "not accepting", "no openings"]

/-- The first keyword loop (app.py 1108-1115): the first hiring keyword
occurring in the lower-cased content sets `is_hiring` and refines
`position_type` from that keyword, then breaks. -/
def classify_hiring (content_lower : String) : Bool × Option String :=
  match hiring_keywords.find? (fun keyword => pyIn keyword content_lower) with
  | some keyword =>
    (true,
     if pyIn "phd" keyword || pyIn "graduate" keyword then some "PhD Student"
     else if pyIn "postdoc" keyword then some "Postdoc"
     else none)
  | none => (false, none)

/-- The second loop (app.py 1118-1121): any not-hiring keyword in the
lower-cased content overrides `is_hiring` to `False` (and leaves
`position_type` untouched). -/
def analyze_hiring_text (content_text : String) : Bool × Option String :=
  let content_lower := pyLower content_text
  let st := classify_hiring content_lower
  if not_hiring_keywords.any (fun keyword => pyIn keyword content_lower) then (false, st.2)
  else st

/-- `search_hiring_info`: one search for the professor (exceptions from the
search call escape to the outer handler, which returns the error string
modelled by `.error`); the first result's URL becomes the only source, the
joined `content` fields of all results are classified, and a `HiringInfo`
is built.  The `detailed_info` extracted from the first URL is computed by
the source but never used in the returned object (its inner `try` converts
extraction failures to text), so it does not appear here. -/
def search_hiring_info (professor_name university_name : String)
    (searchO : String → Except String (List TavilyResult)) (now : String) :
    Except String HiringInfo :=
  let search_query := professor_name ++ " " ++ university_name ++ " hiring PhD students position opening"
  match searchO search_query with
  | .error e => .error ("Error searching for " ++ professor_name ++ ": " ++ e)
  | .ok results =>
    let sources : List String :=
      match results with
      | [] => []
      | first_result :: _ => [first_result.url.getD ""]
    let content_text := String.intercalate " " (results.map fun r => r.content.getD "")
    let st := analyze_hiring_text content_text
    .ok { professor_name := professor_name,
          is_hiring := st.1,
          position_type := st.2,
          details := "Based on search results: " ++ content_text.take 500 ++ "...",
          sources := sources,
          last_updated := some now }

/-- `analyze_all_professors`: iterates the professors in order; a
`HiringInfo` result is kept as is, and anything else (the error string) is
replaced by a default entry carrying the professor's name, `is_hiring =
False`, the error text in `details` and empty sources. -/
def analyze_all_professors (professors : List ProfessorInfo) (university_name : String)
    (searchO : String → Except String (List TavilyResult)) (now : String) :
    List HiringInfo :=
  professors.map fun professor =>
    match search_hiring_info professor.name university_name searchO now with
    | .ok hiring_info => hiring_info
    | .error e =>
      { professor_name := professor.name,
        is_hiring := false,
        position_type := none,
        details := "Error: " ++ e,
        sources := [],
        last_updated := some now }

/-! ### ProfessorMatcher post-parse normalization
(`search_professors_by_university_enhanced`, JSON-mode path, app.py 409-437)

The parsed JSON professor object is a Python dict inspected only through
the eight keys below, so it is modelled as a record of optional JSON
values: `none` means the key is absent, `some v` that it maps to `v`.
Values are moved around opaquely; the code only ever inserts strings and
`None`, so two value constructors suffice. -/

inductive JVal where
  | str : String → JVal
  | null : JVal
deriving DecidableEq, Repr

structure RawProfessor where
  name : Option JVal := none
  full_name : Option JVal := none
  title : Option JVal := none
  department : Option JVal := none
  email : Option JVal := none
  website : Option JVal := none
  google_scholar : Option JVal := none
  linkedin : Option JVal := none
deriving DecidableEq, Repr

/-- The per-professor normalization loop body (app.py 416-432): rename
`full_name` to `name` when `full_name` is present and `name` absent
(`professor["name"] = professor.pop("full_name")`), then default a missing
`title` to `"Professor"`, a missing `department` to `"Computer Science"`,
and missing `email`, `website`, `google_scholar`, `linkedin` to `None`. -/
def normalize_professor (professor : RawProfessor) : RawProfessor :=
  let p := if professor.full_name.isSome && professor.name.isNone then
             { professor with name := professor.full_name, full_name := none }
           else professor
  let p := if p.title.isNone then { p with title := some (JVal.str "Professor") } else p
  let p := if p.department.isNone then { p with department := some (JVal.str "Computer Science") } else p
  let p := if p.email.isNone then { p with email := some JVal.null } else p
  let p := if p.website.isNone then { p with website := some JVal.null } else p
  let p := if p.google_scholar.isNone then { p with google_scholar := some JVal.null } else p
  if p.linkedin.isNone then { p with linkedin := some JVal.null } else p

/-- The top-level parsed JSON object, restricted to the keys the code
touches (`university`, `professors`, `hiring_analysis`). -/
structure RawData where
  university : Option JVal := none
  professors : List RawProfessor := []
  hiring_analysis : List JVal := []
deriving DecidableEq, Repr

/-- The response normalization (app.py 411-435): default a missing
`university` to the university name, normalize every professor object, and
set `hiring_analysis` to the empty list unconditionally. -/
def normalize_response (university_name : String) (data : RawData) : RawData :=
  let data := if data.university.isNone then
                { data with university := some (JVal.str university_name) }
              else data
  { data with professors := data.professors.map normalize_professor,
              hiring_analysis := [] }

/-! ### LLM capability wrapper and GPT-5 detection
(`get_openai_response`, app.py 42-59; `is_gpt5_model` and
`simulate_openai_call`, demo_gpt5_functionality.py 12-46)

Only the request construction is embedded; the network call itself is out
of scope.  The temperature value is kept as its literal text to avoid
floating-point semantics. -/

structure ChatRequest where
  model : String
  messages : List (String × String)
  temperature : Option String := none
deriving DecidableEq, Repr

/-- The chat-completion request built by `get_openai_response` in app.py:
the `temperature=0.01` argument is passed unconditionally, for every
model name. -/
def get_openai_response_request (model prompt_text : String) : ChatRequest :=
  { model := model,
    messages := [("system", "You are a helpful assistant."),
                 ("user", prompt_text)],
    temperature := some "0.01" }

/-- `is_gpt5_model` from demo_gpt5_functionality.py: falsy input gives
`False`, otherwise test the lower-cased name against the prefix tuple
`('gpt-5', 'gpt5')`. -/
def is_gpt5_model (model_name : Option String) : Bool :=
  match model_name with
  | none => false
  | some s => if s = "" then false
              else pyStartsWith "gpt-5" (pyLower s) || pyStartsWith "gpt5" (pyLower s)

/-- The request built by `simulate_openai_call` in the demo script:
temperature is added only when `is_gpt5_model` is false. -/
def simulate_openai_call_request (model_name prompt_text : String) : ChatRequest :=
  let base : ChatRequest :=
    { model := model_name,
      messages := [("system", "You are a helpful assistant."),
                   ("user", prompt_text)],
      temperature := none }
  if !is_gpt5_model (some model_name) then { base with temperature := some "0.01" }
  else base

/-! ### SchedulingAdvisor (`get_optimal_sending_time`, app.py 775-829)

The function reads the clock (`datetime.now` in Asia/Dhaka and its weekday
name), builds one system prompt asking the LLM to work out the professor's
time zone and the optimal send time, and returns the LLM's response text
stripped of surrounding whitespace.  The clock values and the LLM
capability are oracle parameters.  The subsequent
`system_prompt.format(prof_info=prof_info)` call is the identity on this
brace-free prompt.  Apostrophes in the prompt text are written `\x27`. -/

/-- Prompt text before the `{prof_info}` interpolation. -/
def sched_seg_a : String :=
  "\n        You are an expert in time zone analysis and optimal email sending strategies.\n        Your task is to analyze the provided professor\x27s information and determine the best time to send an email to them, considering their local time zone and typical working hours.\n        Here is the professor\x27s information:\n        --- PROFESSOR INFO START ---\n        "

/-- Prompt text between `{prof_info}` and `{bd_current_time}`. -/
def sched_seg_b : String :=
  "\n        --- PROFESSOR INFO END ---\n\n        --- MY LOCAL BANGLADESH TIME ZONE ---\n        The current time in Bangladesh is "

/-- Prompt text between `{bd_current_time}` and `{day}`. -/
def sched_seg_c : String :=
  " (Asia/Dhaka).\n        The current day is "

/-- Prompt text from after `{day}` up to instruction 3. -/
def sched_seg_d : String :=
  ".\n        Please analyze the professor\x27s information to identify their local time zone and calculate the optimal time to send an email.\n\n        Instructions:\n        1. Identify the professor\x27s local time zone based on their location or any clues in the provided information.\n        2. Calculate the current time in that time zone.\n"

/-- Instruction 3 of the prompt: the only place weekend avoidance is
mentioned — it is a request to the LLM, not a computation. -/
def sched_instr3 : String :=
  "        3. Determine the optimal time to send an email, considering typical working hours (e.g., 9 AM to 5 PM) and avoiding weekends.\n"

/-- The remainder of the prompt after instruction 3. -/
def sched_seg_e : String :=
  "        4. Return all times in **12-hour format with AM/PM** (e.g., 9:00 AM, 7:30 PM).\n        5. Return the current time in both Bangladesh and the professor\x27s local time, as well as the optimal sending time in both time zones.\n        6. Consider the weekday and time of day to ensure the email is sent at a time when the professor is likely to be checking their email.\n        7. Format the output as a dictionary with keys:\n        - \x27bd_current_time\x27: current time in Bangladesh (12-hour format with AM/PM),\n        - \x27prof_current_time\x27: current time in the professor\x27s local time zone (12-hour format with AM/PM),\n        - \x27optimal_time_bd\x27: optimal sending time in Bangladesh (12-hour format with AM/PM),\n        - \x27optimal_time_prof\x27: optimal sending time in the professor\x27s local time zone (12-hour format with AM/PM),\n        - \x27prof_timezone\x27: the professor\x27s identified time zone.\n    "

/-- The interpolated system prompt (app.py 781-807). -/
def scheduling_prompt (prof_info bd_current_time day : String) : String :=
  sched_seg_a ++ prof_info ++ sched_seg_b ++ bd_current_time ++ sched_seg_c ++ day ++
    sched_seg_d ++ sched_instr3 ++ sched_seg_e

/-- `get_optimal_sending_time`, OpenAI branch: empty professor info is the
only guarded error; otherwise the function returns the LLM completion for
the system prompt, stripped (`.strip()` modelled by `pyStrip`).  No
post-processing of the returned time text happens in code. -/
def get_optimal_sending_time (llm : String → String)
    (bd_current_time day : String) (prof_info : String) : String :=
  let system_prompt := scheduling_prompt prof_info bd_current_time day
  if prof_info = "" then "Error: No professor information provided."
  else pyStrip (llm system_prompt)

/-! ## Helper lemmas about the substring test -/

theorem strIn_iff_infix (n : List Char) : ∀ l : List Char, strIn n l = true ↔ n <:+: l := by
  intro l
  induction l with
  | nil => simp [strIn, List.isEmpty_iff]
  | cons c t ih => simp [strIn, ih, List.infix_cons_iff]

theorem pyIn_eq_true_iff {needle hay : String} :
    pyIn needle hay = true ↔ needle.data <:+: hay.data :=
  strIn_iff_infix _ _

theorem pyIn_refl (s : String) : pyIn s s = true :=
  pyIn_eq_true_iff.mpr List.infix_rfl

theorem pyIn_append_right {needle t : String} (h : pyIn needle t = true) (s : String) :
    pyIn needle (s ++ t) = true := by
  rw [pyIn_eq_true_iff] at h ⊢
  rw [String.data_append]
  exact h.trans ⟨s.data, [], by simp⟩

theorem pyIn_append_left {needle s : String} (h : pyIn needle s = true) (t : String) :
    pyIn needle (s ++ t) = true := by
  rw [pyIn_eq_true_iff] at h ⊢
  rw [String.data_append]
  exact h.trans ⟨[], t.data, by simp⟩

/-! ## Claim theorems -/

/-- C5: for every university name, planning with no recognized research
areas yields the ten base queries (at least 10) and zero area-specific
queries, and planning with exactly the `robotics` area yields the same
base queries followed by exactly the three robotics-specific templates,
base queries first. -/
theorem query_planner_shape (university_name : String) :
    10 ≤ (base_queries university_name).length ∧
    area_specific_queries university_name [] = [] ∧
    faculty_search_queries university_name [] = base_queries university_name ∧
    faculty_search_queries university_name ["robotics"] =
      base_queries university_name ++
        [university_name ++ " robotics faculty",
         university_name ++ " automation professors",
         university_name ++ " control systems faculty"] := by
  refine ⟨by simp [base_queries], rfl, ?_, ?_⟩
  · simp [faculty_search_queries, area_specific_queries]
  · simp [faculty_search_queries, area_specific_queries, area_queries]

/-- C3 (code bug): the keyword table lists `"AI"` and `"ML"` for the
`artificial_intelligence` area, yet the extractor compares each keyword
verbatim against the lower-cased CV text, so these upper-case keywords can
never match: a CV containing only "AI and ML" yields no areas at all
(the claim requires `artificial_intelligence` to be included).  The empty
CV yields the empty list, as claimed. -/
theorem ai_keyword_never_matches :
    (∃ ks, ("artificial_intelligence", ks) ∈ research_keywords ∧ "AI" ∈ ks ∧ "ML" ∈ ks) ∧
    extract_research_areas_from_cv "AI and ML" = [] ∧
    extract_research_areas_from_cv "" = [] := by
  refine ⟨⟨["artificial intelligence", "AI", "machine learning", "ML", "deep learning", "neural networks"],
    by decide, by decide, by decide⟩, by decide, by decide⟩

/-- C2 counterexample: the phrase "no longer accepting new students" is not
in the code's `not_hiring_keywords` list (which holds "not accepting", not
"no longer accepting"), while the text contains the hiring keyword
"accepting"; so the claimed input yields `is_hiring = true`, not false. -/
theorem not_hiring_example_counterexample :
    (analyze_hiring_text "No longer accepting new students. Seeking PhD students.").1 = true := by
  decide

/-- C2 (amended): for any search-result text in which at least one keyword
of the code's `not_hiring_keywords` list occurs (in the lower-cased text),
the final `is_hiring` is false, regardless of which hiring keywords also
occur — the not-hiring check runs second and overrides. -/
theorem not_hiring_keyword_precedence (content_text : String)
    (h : not_hiring_keywords.any
      (fun keyword => pyIn keyword (pyLower content_text)) = true) :
    (analyze_hiring_text content_text).1 = false := by
  simp [analyze_hiring_text, h]

theorem not_hiring_keyword_precedence_witness :
    not_hiring_keywords.any
      (fun keyword => pyIn keyword
        (pyLower "Not accepting new students. Seeking PhD students.")) = true ∧
    (analyze_hiring_text "Not accepting new students. Seeking PhD students.").1 = false :=
  ⟨by decide, not_hiring_keyword_precedence _ (by decide)⟩

/-- C9 (code bug): the `position_type = "Postdoc"` branch is unreachable —
no keyword of `hiring_keywords` contains "postdoc", so for every
search-result text the analyzer returns `position_type` of `none` or
`"PhD Student"`, never `"Postdoc"`.  In particular the text
"postdoc opening available" matches the hiring keyword "opening" and comes
back with no position type at all. -/
theorem postdoc_never_returned :
    (∀ content_text : String,
      (analyze_hiring_text content_text).2 = none ∨
      (analyze_hiring_text content_text).2 = some "PhD Student") ∧
    analyze_hiring_text "postdoc opening available" = (true, none) := by
  refine ⟨?_, by decide⟩
  intro content_text
  have h2 : (analyze_hiring_text content_text).2 =
      (classify_hiring (pyLower content_text)).2 := by
    simp only [analyze_hiring_text]
    split <;> rfl
  rw [h2]
  unfold classify_hiring
  cases hf : hiring_keywords.find? (fun keyword => pyIn keyword (pyLower content_text)) with
  | none => simp
  | some keyword =>
    have hk : keyword ∈ hiring_keywords := List.mem_of_find?_eq_some hf
    have hpost : pyIn "postdoc" keyword = false := by fin_cases hk <;> decide
    simp only [hpost]
    split
    · right; rfl
    · simp

/-- C6 (code bug): `is_gpt5_model` detects GPT-5 variants by name prefix
and the demo's request builder omits temperature for them, but the actual
wrapper `get_openai_response` in app.py passes `temperature=0.01`
unconditionally — including for model "gpt-5". -/
theorem gpt5_temperature_always_sent :
    is_gpt5_model (some "gpt-5") = true ∧
    is_gpt5_model (some "GPT-5-MINI") = true ∧
    is_gpt5_model (some "gpt-4o-mini") = false ∧
    (get_openai_response_request "gpt-5" "Write an email").temperature = some "0.01" ∧
    (simulate_openai_call_request "gpt-5" "Write an email").temperature = none ∧
    (get_openai_response_request "gpt-4o-mini" "Write an email").temperature = some "0.01" := by
  refine ⟨by decide, by decide, by decide, rfl, by decide, rfl⟩

/-- C1: for a raw professor object with key `full_name` and no key `name`,
normalization moves the value to `name` and removes `full_name`; a missing
`title` becomes "Professor", a missing `department` becomes
"Computer Science", missing `email` / `website` / `google_scholar` /
`linkedin` become null, and the response's `hiring_analysis` is set to the
empty sequence. -/
theorem professor_normalization (p : RawProfessor) (v : JVal)
    (hf : p.full_name = some v) (hn : p.name = none) :
    (normalize_professor p).name = some v ∧
    (normalize_professor p).full_name = none ∧
    (p.title = none → (normalize_professor p).title = some (JVal.str "Professor")) ∧
    (p.department = none → (normalize_professor p).department = some (JVal.str "Computer Science")) ∧
    (p.email = none → (normalize_professor p).email = some JVal.null) ∧
    (p.website = none → (normalize_professor p).website = some JVal.null) ∧
    (p.google_scholar = none → (normalize_professor p).google_scholar = some JVal.null) ∧
    (p.linkedin = none → (normalize_professor p).linkedin = some JVal.null) ∧
    ∀ (university_name : String) (data : RawData),
      (normalize_response university_name data).hiring_analysis = [] := by
  rcases hT : p.title with _ | tv <;> rcases hD : p.department with _ | dv <;>
    rcases hE : p.email with _ | ev <;> rcases hW : p.website with _ | wv <;>
    rcases hG : p.google_scholar with _ | gv <;> rcases hL : p.linkedin with _ | lv <;>
    simp_all [normalize_professor, normalize_response]

theorem professor_normalization_witness :
    ({ full_name := some (JVal.str "Jane Doe") } : RawProfessor).full_name =
        some (JVal.str "Jane Doe") ∧
    ({ full_name := some (JVal.str "Jane Doe") } : RawProfessor).name = none ∧
    (normalize_professor { full_name := some (JVal.str "Jane Doe") }).name =
        some (JVal.str "Jane Doe") ∧
    (normalize_professor { full_name := some (JVal.str "Jane Doe") }).full_name = none ∧
    (normalize_professor { full_name := some (JVal.str "Jane Doe") }).title =
        some (JVal.str "Professor") ∧
    (normalize_response "Example University" { professors := [] }).hiring_analysis = [] := by
  have h := professor_normalization { full_name := some (JVal.str "Jane Doe") }
    (JVal.str "Jane Doe") rfl rfl
  exact ⟨rfl, rfl, h.1, h.2.1, h.2.2.1 rfl, h.2.2.2.2.2.2.2.2 "Example University" _⟩

/-- C4: when all planned queries together produce zero search hits, the
corpus builder returns the explicit no-results error rather than any
success value. -/
theorem no_results_hard_stop (university_name cv_text : String)
    (searchO : String → Except String (List TavilyResult))
    (extractO : String → Except String (Option String))
    (hzero : collect_results
        (faculty_search_queries university_name (extract_research_areas_from_cv cv_text))
        searchO = []) :
    search_professors_with_tavily university_name cv_text searchO extractO =
      .error "Error: No faculty information found via Tavily search" := by
  simp [search_professors_with_tavily, hzero]

theorem no_results_hard_stop_witness :
    collect_results
      (faculty_search_queries "Example University"
        (extract_research_areas_from_cv "machine learning, computer vision"))
      (fun _ => .ok []) = [] ∧
    search_professors_with_tavily "Example University" "machine learning, computer vision"
      (fun _ => .ok []) (fun _ => .ok none) =
      .error "Error: No faculty information found via Tavily search" :=
  ⟨rfl, no_results_hard_stop _ _ _ _ rfl⟩

/-- The per-professor frame contract of the enricher: all fields except
`google_scholar` and `linkedin` are unchanged; a populated (truthy) link is
never overwritten; and a link that does change was falsy before and takes
the truthy value found by the extra lookup. -/
def enrich_frame_rel (searchO : String → AdditionalInfo) (p q : ProfessorInfo) : Prop :=
  q.name = p.name ∧ q.title = p.title ∧ q.department = p.department ∧
  q.research_areas = p.research_areas ∧ q.email = p.email ∧ q.website = p.website ∧
  (truthyS p.google_scholar = true → q.google_scholar = p.google_scholar) ∧
  (truthyS p.linkedin = true → q.linkedin = p.linkedin) ∧
  (q.google_scholar ≠ p.google_scholar →
    truthyS p.google_scholar = false ∧
    q.google_scholar = (searchO p.name).google_scholar ∧
    truthyS (searchO p.name).google_scholar = true) ∧
  (q.linkedin ≠ p.linkedin →
    truthyS p.linkedin = false ∧
    q.linkedin = (searchO p.name).linkedin ∧
    truthyS (searchO p.name).linkedin = true)

/-- C7: `enhance_professor_info` returns exactly one output professor per
input professor, in the same order, and each output is related to its
input by `enrich_frame_rel`: only the optional `google_scholar` and
`linkedin` fields may change, only from a falsy value to the truthy URL
the lookup found, and every other field is untouched. -/
theorem enhance_professor_frame (professors : List ProfessorInfo)
    (searchO : String → AdditionalInfo) :
    (enhance_professor_info professors searchO).length = professors.length ∧
    List.Forall₂ (enrich_frame_rel searchO) professors
      (enhance_professor_info professors searchO) := by
  constructor
  · simp [enhance_professor_info]
  · unfold enhance_professor_info
    rw [List.forall₂_map_right_iff, List.forall₂_same]
    intro p _
    dsimp only
    split_ifs with h1 h2 h3 h3 <;>
      simp_all [enrich_frame_rel, truthyS]

/-- The per-professor contract of the hiring batch: the entry carries the
professor's own name, and if the search call for that professor failed
(raised, modelled by the oracle returning `.error`), the entry is the
default one — not hiring, empty sources, and the error text contained in
`details`. -/
def hiring_entry_rel (university_name : String)
    (searchO : String → Except String (List TavilyResult))
    (p : ProfessorInfo) (h : HiringInfo) : Prop :=
  h.professor_name = p.name ∧
  ∀ e, searchO (p.name ++ " " ++ university_name ++ " hiring PhD students position opening") =
      .error e →
    h.is_hiring = false ∧ h.sources = [] ∧ h.position_type = none ∧
    pyIn e h.details = true ∧
    h.details = "Error: " ++ ("Error searching for " ++ p.name ++ ": " ++ e)

/-- C8: `analyze_all_professors` produces exactly one `HiringInfo` per
input professor, in the same order; each entry's `professor_name` equals
that professor's name; and when the search for one professor raises, the
batch continues and that professor's entry has `is_hiring = false`,
`details` containing the error text, and empty sources. -/
theorem analyze_all_alignment (professors : List ProfessorInfo) (university_name : String)
    (searchO : String → Except String (List TavilyResult)) (now : String) :
    (analyze_all_professors professors university_name searchO now).length =
      professors.length ∧
    List.Forall₂ (hiring_entry_rel university_name searchO) professors
      (analyze_all_professors professors university_name searchO now) := by
  constructor
  · simp [analyze_all_professors]
  · unfold analyze_all_professors
    rw [List.forall₂_map_right_iff, List.forall₂_same]
    intro p _
    cases hq : searchO (p.name ++ " " ++ university_name ++ " hiring PhD students position opening") with
    | error e =>
      simp only [search_hiring_info, hq]
      refine ⟨rfl, ?_⟩
      intro e' he'
      rw [hq] at he'
      cases he'
      refine ⟨rfl, rfl, rfl, ?_, rfl⟩
      exact pyIn_append_right (pyIn_append_right (pyIn_refl e) _) _
    | ok results =>
      simp only [search_hiring_info, hq]
      refine ⟨rfl, ?_⟩
      intro e' he'
      rw [hq] at he'
      cases he'

/-- C10 counterexample: the recommendation is the LLM response text
verbatim (stripped), so nothing prevents a recipient-local send time on a
Saturday — with an LLM capability answering a Saturday time, the function
returns exactly that Saturday recommendation. -/
theorem scheduling_weekend_counterexample :
    get_optimal_sending_time
      (fun _ => "optimal_time_prof: Saturday 10:00 AM")
      "2025-01-03 08:00 PM" "Friday" "Prof. Jane Doe, Example University" =
      "optimal_time_prof: Saturday 10:00 AM" ∧
    pyIn "Saturday"
      (get_optimal_sending_time
        (fun _ => "optimal_time_prof: Saturday 10:00 AM")
        "2025-01-03 08:00 PM" "Friday" "Prof. Jane Doe, Example University") = true := by
  exact ⟨by decide, by decide⟩

/-- C10 (amended): given non-empty professor info, the final computation
in code is only this: return the LLM completion for the scheduling prompt,
stripped of surrounding whitespace.  Weekend avoidance and the 11:00-style
cutoff are delegated to the LLM through the prompt (which asks to avoid
weekends); no arithmetic in the code enforces them on the returned time. -/
theorem scheduling_delegates_to_llm (llm : String → String)
    (bd_current_time day prof_info : String) (h : prof_info ≠ "") :
    get_optimal_sending_time llm bd_current_time day prof_info =
      pyStrip (llm (scheduling_prompt prof_info bd_current_time day)) ∧
    pyIn "avoiding weekends" (scheduling_prompt prof_info bd_current_time day) = true := by
  constructor
  · unfold get_optimal_sending_time
    rw [if_neg h]
  · unfold scheduling_prompt
    have h0 : pyIn "avoiding weekends" sched_instr3 = true := by decide
    exact pyIn_append_left (pyIn_append_right h0 _) _

theorem scheduling_delegates_to_llm_witness :
    ("Prof. Jane Doe, Example University" : String) ≠ "" ∧
    get_optimal_sending_time (fun _ => "  9:30 AM Tuesday  ")
      "2025-01-03 08:00 PM" "Friday" "Prof. Jane Doe, Example University" =
      pyStrip ((fun _ : String => "  9:30 AM Tuesday  ")
        (scheduling_prompt "Prof. Jane Doe, Example University"
          "2025-01-03 08:00 PM" "Friday")) :=
  ⟨by decide,
   (scheduling_delegates_to_llm (fun _ => "  9:30 AM Tuesday  ")
     "2025-01-03 08:00 PM" "Friday" "Prof. Jane Doe, Example University" (by decide)).1⟩

end EmailDraft
